import Mathlib

/-!
Verification of the avatar stream feed of `src/src/web/static/js/app.js`
(class `LumiEnhancedApp`): the canvas frame renderer (`drawToCanvas`),
the pull-mode MJPG feed, the push-mode WebSocket feed, and the feed
controller (`toggleStreamMethod` / `cleanupStream`).

Machine integers and `Date.now()` timestamps are modelled as `Nat`
milliseconds; pixel dimensions and the aspect-ratio arithmetic of
`drawToCanvas` are modelled over `ℚ`.  The single-threaded browser event
loop is modelled by explicit state passing: each `setTimeout` becomes a
recorded task (its fire time, and for the controller model its handle and
owner), and runs are folds over the externally supplied events (fetch
outcomes, inbound socket frames).  Image decoding is modelled as
instantaneous: a `drawToCanvas` call is recorded at the time of the
handler that triggers it.
-/

namespace LumiAI

/-- A bitmap or canvas with pixel dimensions (`image.width` / `image.height`,
`canvas.width` / `canvas.height` in app.js). -/
structure Img where
  width : ℚ
  height : ℚ
deriving DecidableEq

/-- The rectangle handed to `ctx.drawImage(image, offsetX, offsetY,
renderWidth, renderHeight)` (app.js 431). -/
structure Rect where
  offsetX : ℚ
  offsetY : ℚ
  renderWidth : ℚ
  renderHeight : ℚ
deriving DecidableEq

/-- app.js 410-428: the aspect-fit computation inside `drawToCanvas`.
`imgAspect = image.width / image.height`, `canvasAspect = canvas.width /
canvas.height`; the JS test `imgAspect > canvasAspect` is written here as
`canvasAspect < imgAspect`. -/
def fitRect (image canvas : Img) : Rect :=
  if canvas.width / canvas.height < image.width / image.height then
    -- image is wider than canvas (app.js 416-421)
    { offsetX := 0
      offsetY := (canvas.height - canvas.width / (image.width / image.height)) / 2
      renderWidth := canvas.width
      renderHeight := canvas.width / (image.width / image.height) }
  else
    -- image is taller than canvas (app.js 422-428)
    { offsetX := (canvas.width - canvas.height * (image.width / image.height)) / 2
      offsetY := 0
      renderWidth := canvas.height * (image.width / image.height)
      renderHeight := canvas.height }

/-- An effect performed on the 2-D context by `drawToCanvas`. -/
inductive CanvasOp where
  | clearRect (w h : ℚ)
  | drawImage (r : Rect)
deriving DecidableEq

/-- The JS runtime error raised when a property of `null`/`undefined`
is read. -/
inductive JsError where
  | typeError
deriving DecidableEq

/-- app.js 401-432: `drawToCanvas(image)`.  The guard on line 402 returns
early when `this.canvasContext` or `this.currentStream` is falsy; the
image argument itself is never guarded, so reading `image.width` on line
411 throws a `TypeError` when `image` is `null`/`undefined`. -/
def drawToCanvas (canvasContext : Option Unit) (currentStream : Option Img)
    (image : Option Img) : Except JsError (List CanvasOp) :=
  match canvasContext, currentStream with
  | some _, some canvas =>
    match image with
    | none => .error .typeError
    | some img =>
        .ok [.clearRect canvas.width canvas.height, .drawImage (fitRect img canvas)]
  | _, _ => .ok []

/-! ## Feed controller: `toggleStreamMethod` (app.js 160-177) and
`cleanupStream` (app.js 179-203).

Tasks sitting in the browser event loop are modelled explicitly: every
`setTimeout`/`setInterval` call appends a `Timer` carrying the handle the
call returned, its fire time and the component that scheduled it.  The
feeds schedule their re-poll, retry, flush and start tasks anonymously
(app.js 458, 474, 483, 515, 551, 603) — the handles are never stored —
while `this.mjpgRefreshInterval` and `this.canvasRenderTimeout` are the
only stored handles, and they are the only ones `cleanupStream` clears. -/

/-- The component that scheduled an event-loop task. -/
inductive Owner where
  | pullFeed
  | pushFeed
  | controller
deriving DecidableEq

/-- One pending `setTimeout`/`setInterval` task. -/
structure Timer where
  handle : Nat
  fireAt : Nat
  owner : Owner
deriving DecidableEq

/-- The controller-visible fields of `LumiEnhancedApp` (constructor,
app.js 24-33), together with the pending event-loop tasks and a fresh
handle counter. -/
structure CtrlState where
  useMjpgStream : Bool
  mjpgUrl : String
  mjpgRefreshInterval : Option Nat
  canvasRenderTimeout : Option Nat
  live2dSocketConnected : Bool
  currentStream : Option Img
  currentImage : Option Img
  streamInitialized : Bool
  isLoading : Bool
  pendingTimers : List Timer
  nextHandle : Nat
  notifications : List String
deriving DecidableEq

/-- Schedule a task via `setTimeout`, returning the updated state. -/
def setTimeoutTask (s : CtrlState) (fireAt : Nat) (owner : Owner) : CtrlState :=
  { s with pendingTimers := s.pendingTimers ++ [⟨s.nextHandle, fireAt, owner⟩],
           nextHandle := s.nextHandle + 1 }

/-- app.js 179-203: `cleanupStream()`.  Clears the stored
`mjpgRefreshInterval` and `canvasRenderTimeout` handles (and only those),
disconnects the socket if connected, and resets the stream fields. -/
def cleanupStream (s : CtrlState) : CtrlState :=
  let s :=
    match s.mjpgRefreshInterval with
    | some h =>
        { s with pendingTimers := s.pendingTimers.filter (fun t => t.handle ≠ h),
                 mjpgRefreshInterval := none }
    | none => s
  let s :=
    match s.canvasRenderTimeout with
    | some h =>
        { s with pendingTimers := s.pendingTimers.filter (fun t => t.handle ≠ h),
                 canvasRenderTimeout := none }
    | none => s
  let s := if s.live2dSocketConnected then { s with live2dSocketConnected := false } else s
  { s with currentStream := none, streamInitialized := false,
           currentImage := none, isLoading := false }

/-- app.js 160-177: `toggleStreamMethod()` at wall-clock time `now`.
Flips `useMjpgStream`, resets `mjpgUrl` and shows a notification, runs
`cleanupStream`, and schedules the restart task 100 ms later. -/
def toggleStreamMethod (now : Nat) (s : CtrlState) : CtrlState :=
  let s := { s with useMjpgStream := !s.useMjpgStream }
  let s :=
    if s.useMjpgStream then
      { s with mjpgUrl := "/video_feed",
               notifications := s.notifications ++ ["Switched to MJPG Stream (Raw BGR)"] }
    else
      { s with notifications := s.notifications ++ ["Switched to WebSocket Stream"] }
  let s := cleanupStream s
  setTimeoutTask s (now + 100) .controller

/-- The constructor state (app.js 24-33): MJPG mode, `/video_feed` URL,
no stored handles, nothing pending. -/
def ctrlInit : CtrlState :=
  { useMjpgStream := true
    mjpgUrl := "/video_feed"
    mjpgRefreshInterval := none
    canvasRenderTimeout := none
    live2dSocketConnected := false
    currentStream := none
    currentImage := none
    streamInitialized := false
    isLoading := false
    pendingTimers := []
    nextHandle := 0
    notifications := [] }

/-- A reachable pull-mode snapshot: the pull feed has just accepted a frame
and scheduled its anonymous re-poll task `setTimeout(loadNextFrame,
this.frameInterval)` (app.js 474) for t = 1100 under handle 7; the two
stored handles are unset (nothing in app.js ever assigns them). -/
def pullSnapshot : CtrlState :=
  { ctrlInit with
    streamInitialized := true
    currentStream := some ⟨4, 3⟩
    pendingTimers := [⟨7, 1100, .pullFeed⟩]
    nextHandle := 8 }

/-! ## Pull-mode feed: `initializeMjpgStream` (app.js 434-493).

The feed is a single chain of alternating `loadNextFrame` calls and
`loaderImg.onload` / `loaderImg.onerror` resolutions; at most one request
is in flight (`this.isLoading`), and every handler schedules exactly one
follow-up task, so a run is a fold over the oracle of fetch outcomes.
All times are absolute `Date.now()` milliseconds. -/

/-- Status values passed to `updateLive2DStatus` (app.js 633-659). -/
inductive StreamStatus where
  | mjpg_stream
  | virtual_camera
  | placeholder
  | error
  | connecting
deriving DecidableEq

/-- The state threaded through a pull-feed run: the relevant
`LumiEnhancedApp` fields, the closure flag `isFirstLoad` (app.js 441),
the time `now` at which the next scheduled task fires, and the observable
histories (request issue times, `drawToCanvas` call times, statuses). -/
structure PullState where
  useMjpgStream : Bool
  isLoading : Bool
  lastFrameTime : Nat
  isFirstLoad : Bool
  now : Nat
  reqTimes : List Nat
  presents : List Nat
  statuses : List StreamStatus
deriving DecidableEq

/-- app.js 443-449: `loadNextFrame()`.  Returns unchanged unless the mode
flag is still MJPG and no request is in flight; otherwise marks busy and
assigns `loaderImg.src` (issuing one request, cache-busted with the
current timestamp `s.now`). -/
def loadNextFrame (s : PullState) : PullState :=
  if !s.useMjpgStream || s.isLoading then s
  else { s with isLoading := true, reqTimes := s.reqTimes ++ [s.now] }

/-- app.js 451-475: `loaderImg.onload`, firing at absolute time `now`.
Returns the updated state and the delay of the single
`setTimeout(loadNextFrame, _)` it schedules: the remaining budget when
the frame is throttled (app.js 458, the fetched frame is dropped — only
the re-poll is scheduled), the full `frameInterval` after an accepted
frame (app.js 474).  The handler never consults `useMjpgStream`.  The
source sets `isFirstLoad = false` inside the `if (isFirstLoad)` block
(app.js 467-471); writing it unconditionally in the accepted branch is
observationally identical. -/
def mjpgOnload (frameInterval now : Nat) (s : PullState) : PullState × Nat :=
  if now - s.lastFrameTime < frameInterval then
    ({ s with isLoading := false, now := now }, frameInterval - (now - s.lastFrameTime))
  else
    ({ s with isLoading := false, now := now,
              lastFrameTime := now,
              presents := s.presents ++ [now],
              statuses :=
                if s.isFirstLoad then s.statuses ++ [.mjpg_stream] else s.statuses,
              isFirstLoad := false }, frameInterval)

/-- app.js 477-488: `loaderImg.onerror`, firing at absolute time `now`.
Reports the error status immediately and schedules the retry task 1000 ms
later (a fixed constant, independent of `frameInterval`); the retry task
re-checks `useMjpgStream` before calling `loadNextFrame`, which this
model performs on the next run iteration. -/
def mjpgOnerror (now : Nat) (s : PullState) : PullState × Nat :=
  ({ s with isLoading := false, now := now, statuses := s.statuses ++ [.error] }, 1000)

/-- The outcome of one fetch: the latency until `onload`/`onerror` fires
and whether the image loaded. -/
structure FetchResult where
  latency : Nat
  ok : Bool
deriving DecidableEq

/-- Resolution of one in-flight request: success runs `onload`, failure
runs `onerror`, in both cases at issue time plus latency. -/
def pullResolve (frameInterval : Nat) (r : FetchResult) (s1 : PullState) :
    PullState × Nat :=
  if r.ok then mjpgOnload frameInterval (s1.now + r.latency) s1
  else mjpgOnerror (s1.now + r.latency) s1

/-- A pull-feed run: at each step the scheduled task fires at `s.now` and
calls `loadNextFrame`; if a request was issued, its resolution (after the
oracle latency) runs `onload` or `onerror`, whose scheduled follow-up
task fires next.  If `loadNextFrame` declines (mode switched away or
busy), the chain ends. -/
def pullRun (frameInterval : Nat) (s : PullState) : List FetchResult → PullState
  | [] => s
  | r :: rest =>
    if (loadNextFrame s).isLoading then
      pullRun frameInterval
        { (pullResolve frameInterval r (loadNextFrame s)).1 with
          now := (pullResolve frameInterval r (loadNextFrame s)).1.now +
                 (pullResolve frameInterval r (loadNextFrame s)).2 } rest
    else loadNextFrame s

/-- app.js 434-493: the state as `initializeMjpgStream` first calls
`loadNextFrame()` at time `startAt`; `this.lastFrameTime` is 0 from the
constructor and `updateLive2DStatus('mjpg_stream')` has run (app.js 492). -/
def pullInit (startAt : Nat) : PullState :=
  { useMjpgStream := true
    isLoading := false
    lastFrameTime := 0
    isFirstLoad := true
    now := startAt
    reqTimes := []
    presents := []
    statuses := [.mjpg_stream] }

/-! ## Push-mode feed: `initializeWebSocketStream` (app.js 495-611) and
`processWebSocketFrame` (app.js 613-631). -/

/-- An inbound frame payload as seen by `processWebSocketFrame`: whether
the data-URL text starts with `"data:image/"` and whether the browser can
decode it into a bitmap. -/
structure FramePayload where
  startsWithDataImage : Bool
  decodes : Bool
deriving DecidableEq

/-- An observable effect of `processWebSocketFrame`. -/
inductive FrameEffect where
  | presented
  | statusSet (st : StreamStatus)
deriving DecidableEq

/-- app.js 613-631: `processWebSocketFrame(frameData)`.  A
null/undefined payload or one not starting with `data:image/` returns
with no effect (app.js 614-616); a decodable payload is drawn and the
status set to `virtual_camera` in `img.onload` (app.js 620-623); a
payload that fails to decode triggers `img.onerror`, which sets the
status to `error` (app.js 625-628). -/
def processWebSocketFrame (frameData : Option FramePayload) : List FrameEffect :=
  match frameData with
  | none => []
  | some p =>
    if !p.startsWithDataImage then []
    else if p.decodes then [.presented, .statusSet .virtual_camera]
    else [.statusSet .error]

/-- One `drawToCanvas` call made by the push feed: its time, the frame
identifier, and whether it came from the deferred pending-frame flush
task (app.js 551-554) rather than the immediate accept path
(app.js 547). -/
structure PushPresent where
  time : Nat
  frame : Nat
  viaFlush : Bool
deriving DecidableEq

/-- The state of the push feed: `this.lastFrameTime`, the closure
variable `pendingFrame` (app.js 508), and the history of `drawToCanvas`
calls.  Frames are identified by `Nat` ids and assumed well-formed (the
malformed-payload path is `processWebSocketFrame` above); decoding is
modelled as instantaneous. -/
structure PushState where
  lastFrameTime : Nat
  pendingFrame : Option Nat
  presents : List PushPresent
deriving DecidableEq

/-- app.js 551-554: the body of the deferred flush task, firing at time
`t`: it presents whatever `pendingFrame` holds at that moment and nulls
it; if an earlier flush already consumed the pending frame,
`processWebSocketFrame(null)` returns immediately (app.js 614). -/
def flushPending (t : Nat) (s : PushState) : PushState :=
  match s.pendingFrame with
  | some f => { s with presents := s.presents ++ [⟨t, f, true⟩], pendingFrame := none }
  | none => s

/-- Fire, in order, every scheduled flush task due strictly before time
`t` (the event loop runs them before delivering the frame event at `t`). -/
def fireDue (t : Nat) : List Nat → PushState → List Nat × PushState
  | [], s => ([], s)
  | ft :: rest, s =>
      if ft < t then fireDue t rest (flushPending ft s) else (ft :: rest, s)

/-- app.js 536-556: the `live2d_frame` handler at time `t` for frame `f`.
Within the budget the frame is stored as the single pending frame
(overwriting any previous one) and nothing is scheduled; otherwise the
frame is accepted (`lastFrameTime` updated, frame presented) and, if a
pending frame exists at that moment, one flush task is scheduled a full
`frameInterval` later (`pendingFrame` is not cleared here — only the
flush task body clears it). -/
def onLive2dFrame (frameInterval t f : Nat) (timers : List Nat) (s : PushState) :
    List Nat × PushState :=
  if t - s.lastFrameTime < frameInterval then
    (timers, { s with pendingFrame := some f })
  else if s.pendingFrame.isSome then
    (timers ++ [t + frameInterval],
     { s with lastFrameTime := t, presents := s.presents ++ [⟨t, f, false⟩] })
  else
    (timers, { s with lastFrameTime := t, presents := s.presents ++ [⟨t, f, false⟩] })

/-- A push-feed run over inbound frame events `(time, frameId)`: before
each event the due flush tasks fire, then the `live2d_frame` handler
runs; after the last event the remaining flush tasks fire (the event loop
keeps running). -/
def pushRun (frameInterval : Nat) : List (Nat × Nat) → List Nat → PushState → PushState
  | [], timers, s => timers.foldl (fun acc ft => flushPending ft acc) s
  | (t, f) :: rest, timers, s =>
      pushRun frameInterval rest
        (onLive2dFrame frameInterval t f (fireDue t timers s).1 (fireDue t timers s).2).1
        (onLive2dFrame frameInterval t f (fireDue t timers s).1 (fireDue t timers s).2).2

/-- The push feed as `initializeWebSocketStream` installs the
`live2d_frame` handler: `this.lastFrameTime` is 0 from the constructor,
`pendingFrame` is null, no flush task is scheduled. -/
def pushInit : PushState :=
  { lastFrameTime := 0, pendingFrame := none, presents := [] }

/-- The times of all `drawToCanvas` calls of a push run, in call order. -/
def presentTimes (s : PushState) : List Nat :=
  s.presents.map (·.time)

/-- The times of the `drawToCanvas` calls made on the immediate accept
path (app.js 547), excluding the deferred flush calls. -/
def acceptedTimes (s : PushState) : List Nat :=
  (s.presents.filter (fun p => !p.viaFlush)).map (·.time)

/-- No two consecutive entries of `ts` are less than `b` apart. -/
abbrev Spaced (b : Nat) (ts : List Nat) : Prop :=
  ts.Chain' (fun a c => a + b ≤ c)

/-- Invariant of the pull feed: the `drawToCanvas` call times are spaced
by the frame budget and all lie at or before `lastFrameTime`. -/
def PullInv (fi : Nat) (s : PullState) : Prop :=
  Spaced fi s.presents ∧ ∀ t ∈ s.presents, t ≤ s.lastFrameTime

/-- Invariant of the push feed: the accept-path `drawToCanvas` call times
are spaced by the frame budget and all lie at or before `lastFrameTime`. -/
def PushInv (fi : Nat) (s : PushState) : Prop :=
  Spaced fi (acceptedTimes s) ∧ ∀ t ∈ acceptedTimes s, t ≤ s.lastFrameTime

/-! ## Concrete scenario inputs -/

/-- A pull-feed snapshot whose last accepted frame is recent: the shared
`this.lastFrameTime` was last set to 1000 (it is also written by the push
feed, so after a toggle back to MJPG the first resolution can land inside
the budget) and the next `loadNextFrame` fires at t = 1010. -/
def pullThrottled : PullState :=
  { useMjpgStream := true
    isLoading := false
    lastFrameTime := 1000
    isFirstLoad := false
    now := 1010
    reqTimes := []
    presents := []
    statuses := [] }

/-- A pull-feed snapshot at the moment the mode has been switched away
from MJPG while a request (issued at t = 1900) is still in flight. -/
def pullStale : PullState :=
  { useMjpgStream := false
    isLoading := true
    lastFrameTime := 0
    isFirstLoad := false
    now := 1900
    reqTimes := [1900]
    presents := []
    statuses := [] }

/-- The push arrival pattern of the spec's scenario: FrameBudget = 100 ms,
frames 0 ms, 30 ms and 60 ms into the stream (absolute times 1000, 1030,
1060). -/
def c1Arrivals : List (Nat × Nat) :=
  [(1000, 0), (1030, 1), (1060, 2)]

/-- Push arrivals exhibiting a budget violation between a flush present
and the next accepted present: frames at 1000, 1050, 1100 and 1205. -/
def c2Arrivals : List (Nat × Nat) :=
  [(1000, 0), (1050, 1), (1100, 2), (1205, 3)]

/-! ## Theorems -/

/-- Appending one sufficiently late entry preserves spacing. -/
theorem Spaced.append_one {b : Nat} {ts : List Nat} {last t : Nat}
    (h : Spaced b ts) (hle : ∀ x ∈ ts, x ≤ last) (ht : last + b ≤ t) :
    Spaced b (ts ++ [t]) := by
  rw [Spaced, List.chain'_append]
  refine ⟨h, List.chain'_singleton _, ?_⟩
  intro x hx y hy
  simp only [List.head?_cons, Option.mem_def, Option.some.injEq] at hy
  subst hy
  have hx' : x ∈ ts := List.mem_of_mem_getLast? hx
  exact le_trans (Nat.add_le_add_right (hle x hx') b) ht

/-- C7 counterexample: with a live context and canvas but a `null` bitmap,
`drawToCanvas` throws a `TypeError` instead of being a no-op, refuting
the claim that a null/undefined bitmap is a no-op and that the function
never throws. -/
theorem drawToCanvas_throw_cex :
    drawToCanvas (some ()) (some ⟨4, 3⟩) none = .error .typeError ∧
    drawToCanvas (some ()) (some ⟨4, 3⟩) none ≠ .ok [] := by
  exact ⟨rfl, by simp [drawToCanvas]⟩

/-- C7 (amended): a null/undefined canvas context or stream canvas makes
`drawToCanvas` a no-op with no side effects, and with a live surface and a
non-null bitmap it never throws; but a null/undefined bitmap together
with a live surface raises a `TypeError` (the bitmap is not guarded). -/
theorem drawToCanvas_null_guard :
    (∀ cs img, drawToCanvas none cs img = .ok []) ∧
    (∀ cc img, drawToCanvas cc none img = .ok []) ∧
    (∀ canvas img, drawToCanvas (some ()) (some canvas) (some img) =
        .ok [.clearRect canvas.width canvas.height, .drawImage (fitRect img canvas)]) ∧
    (∀ canvas, drawToCanvas (some ()) (some canvas) none = .error .typeError) := by
  refine ⟨fun cs img => ?_, fun cc img => ?_, fun _ _ => rfl, fun _ => rfl⟩
  · cases cs <;> rfl
  · cases cc <;> rfl

/-- C9: for positive bitmap and surface dimensions, `drawToCanvas` draws the
rectangle obtained by comparing the bitmap aspect ratio with the surface
aspect ratio: a relatively wider bitmap is fit to the surface width and
centred vertically (letterbox), otherwise it is fit to the surface height
and centred horizontally (pillarbox), and the bitmap's aspect ratio is
preserved in both cases. -/
theorem drawToCanvas_aspect_fit (image canvas : Img)
    (hiw : 0 < image.width) (hih : 0 < image.height)
    (hcw : 0 < canvas.width) (hch : 0 < canvas.height) :
    drawToCanvas (some ()) (some canvas) (some image) =
      .ok [.clearRect canvas.width canvas.height, .drawImage (fitRect image canvas)] ∧
    (canvas.width / canvas.height < image.width / image.height →
      (fitRect image canvas).renderWidth = canvas.width ∧
      (fitRect image canvas).offsetX = 0 ∧
      2 * (fitRect image canvas).offsetY + (fitRect image canvas).renderHeight =
        canvas.height ∧
      (fitRect image canvas).renderWidth / (fitRect image canvas).renderHeight =
        image.width / image.height) ∧
    (¬ canvas.width / canvas.height < image.width / image.height →
      (fitRect image canvas).renderHeight = canvas.height ∧
      (fitRect image canvas).offsetY = 0 ∧
      2 * (fitRect image canvas).offsetX + (fitRect image canvas).renderWidth =
        canvas.width ∧
      (fitRect image canvas).renderWidth / (fitRect image canvas).renderHeight =
        image.width / image.height) := by
  refine ⟨rfl, fun h => ⟨?_, ?_, ?_, ?_⟩, fun h => ⟨?_, ?_, ?_, ?_⟩⟩
  · simp [fitRect, if_pos h]
  · simp [fitRect, if_pos h]
  · simp only [fitRect, if_pos h]; ring
  · simp only [fitRect, if_pos h]
    rw [div_div_eq_mul_div, mul_comm, mul_div_assoc, div_self hcw.ne', mul_one]
  · simp [fitRect, if_neg h]
  · simp [fitRect, if_neg h]
  · simp only [fitRect, if_neg h]; ring
  · simp only [fitRect, if_neg h]
    rw [mul_comm, mul_div_assoc, div_self hch.ne', mul_one]

/-- C9 witness: a 16:9 bitmap on a 4:3 surface is letterboxed, fit to the
surface width with equal slack above and below. -/
theorem drawToCanvas_aspect_fit_witness :
    ((4 : ℚ) / 3 < 16 / 9) ∧
    (fitRect ⟨16, 9⟩ ⟨4, 3⟩).renderWidth = 4 ∧
    2 * (fitRect ⟨16, 9⟩ ⟨4, 3⟩).offsetY + (fitRect ⟨16, 9⟩ ⟨4, 3⟩).renderHeight = 3 ∧
    (fitRect ⟨16, 9⟩ ⟨4, 3⟩).renderWidth / (fitRect ⟨16, 9⟩ ⟨4, 3⟩).renderHeight =
      (16 : ℚ) / 9 := by
  have h := (drawToCanvas_aspect_fit ⟨16, 9⟩ ⟨4, 3⟩ (by norm_num) (by norm_num)
    (by norm_num) (by norm_num)).2.1 (by norm_num)
  exact ⟨by norm_num, h.1, h.2.2.1, h.2.2.2⟩

/-- C8 counterexample: toggling the stream method at t = 1050 from a state
in which the pull feed's anonymous re-poll task is pending leaves that
task in the event loop — `cleanupStream` only clears the two stored
handles, so a timer of the torn-down feed remains pending, refuting
teardown completeness. -/
theorem toggle_dangling_timer_cex :
    (⟨7, 1100, Owner.pullFeed⟩ : Timer) ∈
      (toggleStreamMethod 1050 pullSnapshot).pendingTimers ∧
    (toggleStreamMethod 1050 pullSnapshot).pendingTimers.filter
      (fun t => t.owner = Owner.pullFeed) ≠ [] := by
  exact ⟨by decide, by decide⟩

/-- C8 (amended): `toggleStreamMethod` tears down only what is reachable
from stored state: it cancels exactly the timers whose handles are stored
in `mjpgRefreshInterval` / `canvasRenderTimeout`, disconnects the socket
and resets the stream fields, then schedules one restart task; every
other pending timer of the previous feed — in particular the feeds'
anonymously scheduled re-poll, retry, flush and start tasks — survives
the switch. -/
theorem toggle_teardown_amended (now : Nat) (s : CtrlState) :
    (∀ t ∈ s.pendingTimers,
        s.mjpgRefreshInterval ≠ some t.handle →
        s.canvasRenderTimeout ≠ some t.handle →
        t ∈ (toggleStreamMethod now s).pendingTimers) ∧
    (toggleStreamMethod now s).live2dSocketConnected = false ∧
    (toggleStreamMethod now s).currentStream = none ∧
    (toggleStreamMethod now s).streamInitialized = false ∧
    (toggleStreamMethod now s).isLoading = false ∧
    (⟨s.nextHandle, now + 100, Owner.controller⟩ : Timer) ∈
      (toggleStreamMethod now s).pendingTimers := by
  rcases s with ⟨um, url, mri, crt, conn, cs, ci, si, il, ts, nh, ns⟩
  unfold toggleStreamMethod cleanupStream setTimeoutTask
  rcases mri with _ | h1 <;> rcases crt with _ | h2 <;> rcases conn <;> cases um <;>
    simp_all [List.mem_filter, List.mem_append, ne_comm]

/-- C8 witness for the amended theorem: from the pull snapshot, the
anonymous pull re-poll timer survives the toggle and the restart task is
scheduled. -/
theorem toggle_teardown_amended_witness :
    (⟨7, 1100, Owner.pullFeed⟩ : Timer) ∈
      (toggleStreamMethod 1050 pullSnapshot).pendingTimers ∧
    (⟨8, 1150, Owner.controller⟩ : Timer) ∈
      (toggleStreamMethod 1050 pullSnapshot).pendingTimers := by
  refine ⟨(toggle_teardown_amended 1050 pullSnapshot).1 ⟨7, 1100, .pullFeed⟩
    (by decide) (by decide) (by decide), ?_⟩
  exact (toggle_teardown_amended 1050 pullSnapshot).2.2.2.2.2

/-- C10: toggling the stream method twice restores `useMjpgStream` from
any state, and whenever `useMjpgStream` is true the URL `mjpgUrl` is
`/video_feed` — true of the constructor state and re-established by every
toggle that lands in MJPG mode. -/
theorem toggle_involution_url (now1 now2 : Nat) (s : CtrlState) :
    (toggleStreamMethod now2 (toggleStreamMethod now1 s)).useMjpgStream =
      s.useMjpgStream ∧
    (ctrlInit.useMjpgStream = true ∧ ctrlInit.mjpgUrl = "/video_feed") ∧
    ((toggleStreamMethod now1 s).useMjpgStream = true →
      (toggleStreamMethod now1 s).mjpgUrl = "/video_feed") := by
  rcases s with ⟨um, url, mri, crt, conn, cs, ci, si, il, ts, nh, ns⟩
  refine ⟨?_, ⟨rfl, rfl⟩, ?_⟩ <;>
  · unfold toggleStreamMethod cleanupStream setTimeoutTask
    rcases mri with _ | h1 <;> rcases crt with _ | h2 <;> rcases conn <;> cases um <;>
      simp_all

/-- `loadNextFrame` preserves the pull invariant: it never presents and
never moves `lastFrameTime`. -/
theorem pullInv_loadNextFrame {fi : Nat} {s : PullState} (hs : PullInv fi s) :
    PullInv fi (loadNextFrame s) := by
  unfold PullInv loadNextFrame at *
  split
  · exact hs
  · exact hs

/-- `onload` preserves the pull invariant: a present happens only when the
elapsed time since `lastFrameTime` reaches the budget, and it updates
`lastFrameTime` to the present time. -/
theorem pullInv_onload {fi now : Nat} (hfi : 0 < fi) {s : PullState}
    (hs : PullInv fi s) : PullInv fi (mjpgOnload fi now s).1 := by
  unfold PullInv at hs ⊢
  rcases hs with ⟨hsp, hle⟩
  unfold mjpgOnload
  split
  next h => exact ⟨hsp, hle⟩
  next h =>
    have hb : s.lastFrameTime + fi ≤ now := by omega
    show Spaced fi (s.presents ++ [now]) ∧ ∀ t ∈ s.presents ++ [now], t ≤ now
    refine ⟨Spaced.append_one hsp hle hb, ?_⟩
    intro t ht
    rcases List.mem_append.mp ht with ht | ht
    · exact le_trans (hle t ht) (by omega)
    · simp only [List.mem_singleton] at ht; omega

/-- Request resolution preserves the pull invariant (`onerror` touches
neither the presents nor `lastFrameTime`). -/
theorem pullInv_resolve {fi : Nat} (r : FetchResult) {s1 : PullState} (hfi : 0 < fi)
    (hs : PullInv fi s1) : PullInv fi (pullResolve fi r s1).1 := by
  unfold pullResolve
  split
  · exact pullInv_onload hfi hs
  · exact hs

/-- A whole pull run preserves the pull invariant. -/
theorem pullRun_inv (fi : Nat) (hfi : 0 < fi) (o : List FetchResult) :
    ∀ s : PullState, PullInv fi s → PullInv fi (pullRun fi s o) := by
  induction o with
  | nil => exact fun s hs => hs
  | cons r rest ih =>
    intro s hs
    rw [pullRun]
    split
    · exact ih _ (pullInv_resolve r hfi (pullInv_loadNextFrame hs))
    · exact pullInv_loadNextFrame hs

/-- The flush task never touches the accept-path presents or
`lastFrameTime`. -/
theorem acceptedTimes_flushPending (t : Nat) (s : PushState) :
    acceptedTimes (flushPending t s) = acceptedTimes s ∧
    (flushPending t s).lastFrameTime = s.lastFrameTime := by
  unfold flushPending
  split
  next f heq =>
    refine ⟨?_, rfl⟩
    unfold acceptedTimes
    simp [List.filter_append]
  next => exact ⟨rfl, rfl⟩

/-- The flush task preserves the push invariant. -/
theorem pushInv_flushPending {fi t : Nat} {s : PushState} (hs : PushInv fi s) :
    PushInv fi (flushPending t s) := by
  unfold PushInv at hs ⊢
  rw [(acceptedTimes_flushPending t s).1, (acceptedTimes_flushPending t s).2]
  exact hs

/-- Firing the due flush tasks preserves the push invariant. -/
theorem pushInv_fireDue {fi : Nat} (t : Nat) (ts : List Nat) :
    ∀ s : PushState, PushInv fi s → PushInv fi (fireDue t ts s).2 := by
  induction ts with
  | nil => exact fun s hs => hs
  | cons ft rest ih =>
    intro s hs
    rw [fireDue]
    split
    · exact ih _ (pushInv_flushPending hs)
    · exact hs

/-- The `live2d_frame` handler preserves the push invariant: the accept
path presents only when the budget has elapsed and then moves
`lastFrameTime` to the accept time. -/
theorem pushInv_onFrame {fi : Nat} (hfi : 0 < fi) (t f : Nat) (timers : List Nat)
    {s : PushState} (hs : PushInv fi s) :
    PushInv fi (onLive2dFrame fi t f timers s).2 := by
  unfold PushInv at hs ⊢
  rcases hs with ⟨hsp, hle⟩
  unfold onLive2dFrame
  split
  next h => exact ⟨hsp, hle⟩
  next h =>
    have hb : s.lastFrameTime + fi ≤ t := by omega
    have hacc : acceptedTimes
        { s with lastFrameTime := t, presents := s.presents ++ [⟨t, f, false⟩] } =
        acceptedTimes s ++ [t] := by
      unfold acceptedTimes
      simp [List.filter_append]
    have hinv : Spaced fi (acceptedTimes
          { s with lastFrameTime := t, presents := s.presents ++ [⟨t, f, false⟩] }) ∧
        ∀ x ∈ acceptedTimes
          { s with lastFrameTime := t, presents := s.presents ++ [⟨t, f, false⟩] },
          x ≤ t := by
      rw [hacc]
      refine ⟨Spaced.append_one hsp hle hb, ?_⟩
      intro x hx
      rcases List.mem_append.mp hx with hx | hx
      · exact le_trans (hle x hx) (by omega)
      · simp only [List.mem_singleton] at hx; omega
    split <;> exact hinv

/-- Draining the remaining flush tasks preserves the push invariant. -/
theorem pushInv_drain {fi : Nat} (ts : List Nat) :
    ∀ s : PushState, PushInv fi s →
      PushInv fi (ts.foldl (fun acc ft => flushPending ft acc) s) := by
  induction ts with
  | nil => exact fun s hs => hs
  | cons ft rest ih =>
    intro s hs
    rw [List.foldl_cons]
    exact ih _ (pushInv_flushPending hs)

/-- A whole push run preserves the push invariant. -/
theorem pushRun_inv (fi : Nat) (hfi : 0 < fi) (arrivals : List (Nat × Nat)) :
    ∀ (timers : List Nat) (s : PushState), PushInv fi s →
      PushInv fi (pushRun fi arrivals timers s) := by
  induction arrivals with
  | nil => exact fun timers s hs => pushInv_drain timers s hs
  | cons a rest ih =>
    rcases a with ⟨t, f⟩
    intro timers s hs
    rw [pushRun]
    exact ih _ _ (pushInv_onFrame hfi t f _ (pushInv_fireDue t timers _ hs))

/-- C10 witness: double toggle from the constructor state lands back in
MJPG mode, and a toggle from WebSocket mode re-establishes the URL. -/
theorem toggle_involution_url_witness :
    (toggleStreamMethod 5 (toggleStreamMethod 0 ctrlInit)).useMjpgStream = true ∧
    (toggleStreamMethod 0 { ctrlInit with useMjpgStream := false }).mjpgUrl =
      "/video_feed" := by
  constructor
  · have h := (toggle_involution_url 0 5 ctrlInit).1
    simpa using h
  · exact (toggle_involution_url 0 0 { ctrlInit with useMjpgStream := false }).2.2
      (by decide)

/-- C1 counterexample: with FrameBudget = 100 ms and push frames arriving
0, 30 and 60 ms into the stream, only the first frame is ever presented:
the 30 ms frame is overwritten in `pendingFrame`, and the 60 ms frame
stays pending forever because the flush task is only scheduled when a
later frame is accepted — no deferred task fires at the budget boundary,
refuting the claimed presentations at t = 0 and t = 100. -/
theorem push_pending_never_flushed_cex :
    presentTimes (pushRun 100 c1Arrivals [] pushInit) = [1000] ∧
    (pushRun 100 c1Arrivals [] pushInit).pendingFrame = some 2 ∧
    presentTimes (pushRun 100 c1Arrivals [] pushInit) ≠ [1000, 1100] := by
  exact ⟨by decide, by decide, by decide⟩

/-- C1 (amended): a push frame arriving within the budget is stored as
the single pending frame (last-one-wins) and no task is scheduled for
it; a flush task — delayed by the full FrameBudget, not the remaining
window — is scheduled only when a later frame is accepted while a
pending frame exists; consequently, in the 0/30/60 ms scenario only the
first frame is presented and the 60 ms frame remains pending forever. -/
theorem push_pending_flush_amended (fi t f : Nat) (timers : List Nat) (s : PushState) :
    (t - s.lastFrameTime < fi →
      onLive2dFrame fi t f timers s = (timers, { s with pendingFrame := some f })) ∧
    (¬ t - s.lastFrameTime < fi → s.pendingFrame.isSome = true →
      onLive2dFrame fi t f timers s =
        (timers ++ [t + fi],
         { s with lastFrameTime := t, presents := s.presents ++ [⟨t, f, false⟩] })) ∧
    presentTimes (pushRun 100 c1Arrivals [] pushInit) = [1000] ∧
    (pushRun 100 c1Arrivals [] pushInit).pendingFrame = some 2 := by
  refine ⟨fun h => ?_, fun h hp => ?_, by decide, by decide⟩
  · unfold onLive2dFrame
    rw [if_pos h]
  · unfold onLive2dFrame
    rw [if_neg h, if_pos hp]

/-- C1 witness for the amended theorem: the 30 ms frame is stored as
pending without any scheduling, and an accepted frame at t = 1100 with a
pending frame schedules the flush a full budget later (t = 1200). -/
theorem push_pending_flush_amended_witness :
    onLive2dFrame 100 1030 1 [] ⟨1000, none, [⟨1000, 0, false⟩]⟩ =
      ([], ⟨1000, some 1, [⟨1000, 0, false⟩]⟩) ∧
    onLive2dFrame 100 1100 2 [] ⟨1000, some 1, [⟨1000, 0, false⟩]⟩ =
      ([1200], ⟨1100, some 1, [⟨1000, 0, false⟩, ⟨1100, 2, false⟩]⟩) := by
  constructor
  · exact (push_pending_flush_amended 100 1030 1 [] ⟨1000, none, [⟨1000, 0, false⟩]⟩).1
      (by decide)
  · exact (push_pending_flush_amended 100 1100 2 [] ⟨1000, some 1,
      [⟨1000, 0, false⟩]⟩).2.1 (by decide) (by decide)

/-- C2 counterexample: in the push feed with FrameBudget = 100 ms, frames
at 1000, 1050, 1100 and 1205 produce `drawToCanvas` calls at 1000, 1100,
1200 (deferred flush, which neither checks the budget nor updates
`lastFrameTime`) and 1205 — the last two are 5 ms apart, violating the
claimed minimum spacing for the same feed. -/
theorem push_flush_spacing_cex :
    presentTimes (pushRun 100 c2Arrivals [] pushInit) = [1000, 1100, 1200, 1205] ∧
    ¬ Spaced 100 (presentTimes (pushRun 100 c2Arrivals [] pushInit)) := by
  have h : presentTimes (pushRun 100 c2Arrivals [] pushInit) =
      [1000, 1100, 1200, 1205] := by decide
  refine ⟨h, ?_⟩
  rw [h, Spaced]
  simp [List.chain'_cons]

/-- C2 (amended): for every budget B > 0, the pull feed's `drawToCanvas`
calls are never less than B apart (for any start time and any fetch
oracle), and the push feed's accept-path `drawToCanvas` calls are never
less than B apart (for any arrival sequence); the deferred flush calls of
the push feed are exempt and can violate the spacing. -/
theorem feed_present_spacing_amended (fi : Nat) (hfi : 0 < fi) :
    (∀ (startAt : Nat) (o : List FetchResult),
        Spaced fi (pullRun fi (pullInit startAt) o).presents) ∧
    (∀ arrivals : List (Nat × Nat),
        Spaced fi (acceptedTimes (pushRun fi arrivals [] pushInit))) := by
  constructor
  · intro startAt o
    exact (pullRun_inv fi hfi o (pullInit startAt) ⟨List.chain'_nil, by simp [pullInit]⟩).1
  · intro arrivals
    exact (pushRun_inv fi hfi arrivals [] pushInit
      ⟨List.chain'_nil, by simp [pushInit, acceptedTimes]⟩).1

/-- C2 witness for the amended theorem at budget 100 with concrete runs. -/
theorem feed_present_spacing_amended_witness :
    (0 : Nat) < 100 ∧
    Spaced 100 (pullRun 100 (pullInit 1000) [⟨0, true⟩, ⟨0, true⟩]).presents ∧
    Spaced 100 (acceptedTimes (pushRun 100 c2Arrivals [] pushInit)) :=
  ⟨by decide, (feed_present_spacing_amended 100 (by decide)).1 1000 [⟨0, true⟩, ⟨0, true⟩],
   (feed_present_spacing_amended 100 (by decide)).2 c2Arrivals⟩

/-- C3 counterexample: from a state whose last accepted frame is 10 ms
old, a fetch resolving 50 ms into the budget is dropped — nothing is
presented at that step — and `loadNextFrame` runs again after the
remaining delay, issuing a second request (at t = 1100) with a fresh
cache-busting timestamp; the only presentation (t = 1160) comes from the
second fetch, refuting "no new request is issued and the already-fetched
frame is presented". -/
theorem pull_throttle_refetch_cex :
    (pullRun 100 pullThrottled [⟨40, true⟩, ⟨60, true⟩]).reqTimes = [1010, 1100] ∧
    (pullRun 100 pullThrottled [⟨40, true⟩, ⟨60, true⟩]).presents = [1160] ∧
    (pullRun 100 pullThrottled [⟨40, true⟩, ⟨60, true⟩]).reqTimes.length ≠ 1 := by
  exact ⟨by decide, by decide, by decide⟩

/-- C3 (amended): in pull mode, when a fetched frame resolves less than
FrameBudget after the last accepted frame, the fetched frame is dropped
(no present, no `lastFrameTime` update) and `loadNextFrame` is
rescheduled after the remaining delay `FrameBudget - elapsed`; when it
fires it issues a new cache-busted request rather than re-presenting the
dropped frame. -/
theorem pull_throttle_amended (fi : Nat) (r : FetchResult) (rest : List FetchResult)
    (s : PullState) (hm : s.useMjpgStream = true) (hl : s.isLoading = false)
    (hok : r.ok = true)
    (hthr : s.now + r.latency - s.lastFrameTime < fi) :
    pullRun fi s (r :: rest) =
      pullRun fi
        { s with isLoading := false,
                 reqTimes := s.reqTimes ++ [s.now],
                 now := s.now + r.latency +
                        (fi - (s.now + r.latency - s.lastFrameTime)) } rest := by
  rw [pullRun]
  have hln : loadNextFrame s =
      { s with isLoading := true, reqTimes := s.reqTimes ++ [s.now] } := by
    unfold loadNextFrame
    rw [hm, hl]
    rfl
  rw [hln]
  simp [pullResolve, mjpgOnload, hok, hthr]

/-- C3 witness for the amended theorem at the concrete throttled state. -/
theorem pull_throttle_amended_witness :
    pullRun 100 pullThrottled [⟨40, true⟩, ⟨60, true⟩] =
      pullRun 100
        { pullThrottled with
            isLoading := false,
            reqTimes := [1010],
            now := 1100 } [⟨60, true⟩] := by
  have h := pull_throttle_amended 100 ⟨40, true⟩ [⟨60, true⟩] pullThrottled
    (by decide) (by decide) (by decide) (by decide)
  simpa [pullThrottled] using h

/-- C4 counterexample: with the mode already switched away from pull
(`useMjpgStream = false`), the in-flight response resolving at t = 2000
is still fully processed by `onload`: `drawToCanvas` is called (the frame
is presented, painting onto whatever canvas the new feed has set up) and
`lastFrameTime` is updated — the response is not discarded, and no
current-mode check happens at resolution time. -/
theorem pull_onload_mode_cex :
    (mjpgOnload 100 2000 pullStale).1.presents = [2000] ∧
    pullStale.useMjpgStream = false ∧
    (mjpgOnload 100 2000 pullStale).1.lastFrameTime = 2000 := by
  exact ⟨by decide, by decide, by decide⟩

/-- C4 (amended): the `onload` handler never consults the current-mode
flag — its result is the same whatever the flag holds, so an in-flight
pull response resolving after a mode switch is still processed and
presented; the discard point is `loadNextFrame`, which checks the flag
when the follow-up task fires and then refuses to issue a new request,
ending the pull chain one resolution after the switch. -/
theorem pull_onload_mode_amended (fi now : Nat) (s : PullState) (b : Bool) :
    (mjpgOnload fi now { s with useMjpgStream := b }).1 =
      { (mjpgOnload fi now s).1 with useMjpgStream := b } ∧
    (mjpgOnload fi now { s with useMjpgStream := b }).2 =
      (mjpgOnload fi now s).2 ∧
    (∀ s2 : PullState, s2.useMjpgStream = false → loadNextFrame s2 = s2) := by
  refine ⟨?_, ?_, fun s2 h2 => ?_⟩
  · unfold mjpgOnload
    split_ifs <;> rfl
  · unfold mjpgOnload
    split_ifs <;> rfl
  · unfold loadNextFrame
    rw [h2]
    rfl

/-- C4 witness for the amended theorem at the stale in-flight state. -/
theorem pull_onload_mode_amended_witness :
    (mjpgOnload 100 2000 { pullStale with useMjpgStream := false }).1 =
      { (mjpgOnload 100 2000 pullStale).1 with useMjpgStream := false } ∧
    loadNextFrame pullStale = pullStale := by
  refine ⟨(pull_onload_mode_amended 100 2000 pullStale false).1, ?_⟩
  exact (pull_onload_mode_amended 100 2000 pullStale false).2.2 pullStale (by decide)

/-- C5: every pull-mode fetch failure immediately reports the error
(Degraded) status and schedules exactly one retry, fixed 1000 ms after
the failure and independent of the frame budget `fi`; concretely, three
consecutive failures (latency 0, starting at t = 1000) yield exactly
three retries at 2000, 3000 and 4000 — spaced exactly 1000 ms — with the
error status reported at each failure, and the run continues normally
(no crash): the fourth, successful fetch presents at t = 4000. -/
theorem pull_failure_retry (fi : Nat) (r : FetchResult) (rest : List FetchResult)
    (s : PullState) (hm : s.useMjpgStream = true) (hl : s.isLoading = false)
    (hfail : r.ok = false) :
    (pullRun fi s (r :: rest) =
      pullRun fi
        { s with isLoading := false,
                 reqTimes := s.reqTimes ++ [s.now],
                 statuses := s.statuses ++ [.error],
                 now := s.now + r.latency + 1000 } rest) ∧
    (pullRun 100 (pullInit 1000)
        [⟨0, false⟩, ⟨0, false⟩, ⟨0, false⟩, ⟨0, true⟩]).reqTimes =
      [1000, 2000, 3000, 4000] ∧
    (pullRun 100 (pullInit 1000)
        [⟨0, false⟩, ⟨0, false⟩, ⟨0, false⟩, ⟨0, true⟩]).statuses =
      [.mjpg_stream, .error, .error, .error, .mjpg_stream] ∧
    (pullRun 100 (pullInit 1000)
        [⟨0, false⟩, ⟨0, false⟩, ⟨0, false⟩, ⟨0, true⟩]).presents = [4000] := by
  refine ⟨?_, by decide, by decide, by decide⟩
  rw [pullRun]
  have hln : loadNextFrame s =
      { s with isLoading := true, reqTimes := s.reqTimes ++ [s.now] } := by
    unfold loadNextFrame
    rw [hm, hl]
    rfl
  rw [hln]
  simp [pullResolve, mjpgOnerror, hfail]

/-- C5 witness: the failure-step equation at the initial state with a
zero-latency failing fetch. -/
theorem pull_failure_retry_witness :
    pullRun 100 (pullInit 1000) [⟨0, false⟩] =
      pullRun 100
        { pullInit 1000 with
            isLoading := false,
            reqTimes := (pullInit 1000).reqTimes ++ [(pullInit 1000).now],
            statuses := (pullInit 1000).statuses ++ [.error],
            now := (pullInit 1000).now + 0 + 1000 } [] :=
  (pull_failure_retry 100 ⟨0, false⟩ [] (pullInit 1000) rfl rfl rfl).1

/-- C6 counterexample: a malformed inbound frame payload that passes the
`data:image/` prefix check but fails to decode is dropped but not
silently — `img.onerror` sets the status to `error`, refuting "no status
change" for every malformed payload. -/
theorem decode_failure_status_cex :
    processWebSocketFrame (some ⟨true, false⟩) =
      [.statusSet .error] ∧
    processWebSocketFrame (some ⟨true, false⟩) ≠ [] := by
  exact ⟨rfl, by decide⟩

/-- C6 (amended): a null payload or one failing the `data:image/` prefix
check is silently dropped — no present, no status change; a payload that
passes the prefix check but fails to decode is likewise never presented,
but it sets the status to `error`; only decodable payloads are ever
presented. -/
theorem decode_failure_amended :
    processWebSocketFrame none = [] ∧
    (∀ p : FramePayload, p.startsWithDataImage = false →
        processWebSocketFrame (some p) = []) ∧
    (∀ p : FramePayload, p.startsWithDataImage = true → p.decodes = false →
        processWebSocketFrame (some p) = [.statusSet .error]) ∧
    (∀ p : FramePayload, FrameEffect.presented ∈ processWebSocketFrame (some p) →
        p.decodes = true) := by
  refine ⟨rfl, fun p h => ?_, fun p h1 h2 => ?_, fun p hp => ?_⟩
  · rcases p with ⟨sw, dec⟩
    cases sw <;> cases dec <;> simp_all [processWebSocketFrame]
  · rcases p with ⟨sw, dec⟩
    cases sw <;> cases dec <;> simp_all [processWebSocketFrame]
  · rcases p with ⟨sw, dec⟩
    cases sw <;> cases dec <;> simp_all [processWebSocketFrame]

/-- C6 witness: a payload without the prefix is silently dropped; a
prefix-passing undecodable payload sets the error status. -/
theorem decode_failure_amended_witness :
    processWebSocketFrame (some ⟨false, true⟩) = [] ∧
    processWebSocketFrame (some ⟨true, false⟩) = [.statusSet .error] :=
  ⟨decode_failure_amended.2.1 ⟨false, true⟩ rfl,
   decode_failure_amended.2.2.1 ⟨true, false⟩ rfl rfl⟩

end LumiAI
